import Mathlib

/-!
Shallow embedding of `scooter7/autoblogger` (files `src/autoblogger.py` and,
where a claim cites it, `src/OLD_autoblogger.py`).

The program is a Streamlit app with
  - a startup secrets check (module top, lines 17-24),
  - `generate_blog_content` (returns the completion text, or `None` after a
    caught exception),
  - `publish_blog_post` (POSTs to the content API; `True` iff HTTP 201, with
    the json id read for logging; any exception is caught and yields `False`),
  - `cron_function`, a sleep loop that every 1800 s runs a generate-then-
    publish cycle, sleeping 5 s between due-time checks and sleeping 30 s
    after a raised exception,
  - `start_cron_job_in_background` / `stop_cron_job`, which toggle the
    session flag `cron_running` and spawn / signal the loop thread,
  - a manual "Generate and Publish" button handler.

Machine integers do not occur (times are small nonnegative ints); Python
strings are Lean `String`; fallible calls are `Option` / `Except`; the remote
services are oracles passed as function arguments.  Thread liveness is made
explicit with a bookkeeping counter so the at-most-one-loop invariant can be
stated; a thread exits exactly when it evaluates the loop condition
`while st.session_state["cron_running"]` and finds it false.
-/

namespace Autoblogger

/-- The Streamlit session state used by the schedule controller
(`src/autoblogger.py` lines 44-48): `cron_running` is
`st.session_state["cron_running"]` and `cron_thread` is
`st.session_state["cron_thread"]`, modelled as a thread id.  The two
bookkeeping fields record what the Python runtime tracks implicitly:
`live_threads` counts the `cron_function` threads that have been spawned and
have not yet returned, and `next_tid` is the id supply. -/
structure SessionState where
  cron_running : Bool
  cron_thread : Option Nat
  live_threads : Nat
  next_tid : Nat
deriving DecidableEq, Repr

/-- Session state right after module load (lines 45-48): flag false, no
thread stored, no loop thread alive. -/
def initState : SessionState :=
  { cron_running := false, cron_thread := none, live_threads := 0, next_tid := 0 }

/-- `start_cron_job_in_background` (lines 132-143): if the flag is not set,
set it, spawn a new `cron_function` thread and store its handle; otherwise
only log "already running" and change nothing. -/
def start_cron_job_in_background (s : SessionState) : SessionState :=
  if s.cron_running then s
  else
    { cron_running := true, cron_thread := some s.next_tid,
      live_threads := s.live_threads + 1, next_tid := s.next_tid + 1 }

/-- `stop_cron_job` (lines 145-154): if the flag is set, clear it (the loop
thread is only signalled, not joined); otherwise change nothing. -/
def stop_cron_job (s : SessionState) : SessionState :=
  if s.cron_running then { s with cron_running := false } else s

/-- A live `cron_function` thread evaluates its loop condition
`while st.session_state["cron_running"]` (line 103), finds it false, and
returns.  This is only enabled while the flag is false and a thread is live;
a thread that is mid-cycle (for instance inside a blocking network call) has
not yet re-checked the flag and stays alive. -/
def thread_exit (s : SessionState) : SessionState :=
  if s.cron_running then s
  else if s.live_threads = 0 then s
  else { s with live_threads := s.live_threads - 1 }

/-- Interleaved events on the session state: the two UI buttons plus the
scheduler step in which a loop thread observes the cleared flag and exits. -/
inductive SysEvent
  | startEv
  | stopEv
  | exitEv
deriving DecidableEq, Repr

/-- One interleaving step. -/
def sysStep (e : SysEvent) (s : SessionState) : SessionState :=
  match e with
  | SysEvent.startEv => start_cron_job_in_background s
  | SysEvent.stopEv => stop_cron_job s
  | SysEvent.exitEv => thread_exit s

/-- Run a sequence of interleaved events; `sysRun evs initState` ranges over
exactly the reachable session states. -/
def sysRun (evs : List SysEvent) (s : SessionState) : SessionState :=
  evs.foldl (fun s e => sysStep e s) s

/-- Synchronized events: as `SysEvent`, but a stop is atomically followed by
the stopped loop thread observing the cleared flag and exiting before the
next UI event is processed. -/
inductive SyncEvent
  | startS
  | stopS
deriving DecidableEq, Repr

/-- One synchronized step: `stopS` is `stop_cron_job` immediately followed by
the signalled thread's exit. -/
def syncStep (e : SyncEvent) (s : SessionState) : SessionState :=
  match e with
  | SyncEvent.startS => start_cron_job_in_background s
  | SyncEvent.stopS => thread_exit (stop_cron_job s)

/-- Run a sequence of synchronized events. -/
def syncRun (evs : List SyncEvent) (s : SessionState) : SessionState :=
  evs.foldl (fun s e => syncStep e s) s

/-- Inductive invariant of the synchronized machine: exactly one loop thread
is live while the flag is set, none while it is clear. -/
def syncInv (s : SessionState) : Prop :=
  s.live_threads = if s.cron_running then 1 else 0

lemma syncStep_inv (e : SyncEvent) (s : SessionState) (h : syncInv s) :
    syncInv (syncStep e s) := by
  cases e with
  | startS =>
      unfold syncInv syncStep start_cron_job_in_background at *
      cases hc : s.cron_running <;> simp [hc] at h ⊢ <;> omega
  | stopS =>
      unfold syncInv syncStep stop_cron_job thread_exit at *
      cases hc : s.cron_running <;> simp [hc] at h ⊢ <;> simp [h, hc]

lemma syncRun_inv (evs : List SyncEvent) :
    ∀ s : SessionState, syncInv s → syncInv (syncRun evs s) := by
  induction evs with
  | nil => intro s h; exact h
  | cons e t ih => intro s h; exact ih (syncStep e s) (syncStep_inv e s h)

/-- Python truthiness of an optional string: `None` and the empty string are
falsy, every other string is truthy.  This is the test `if blog_content:`
applied to the value returned by `generate_blog_content` (which is the
completion text, or `None` after a caught exception). -/
def truthy : Option String → Bool
  | none => false
  | some s => s != ""

/-- Observable calls the program makes to its two remote collaborators:
a chat-completion request (with the prompt's title, topic and keywords) and
a create-post request (with title and body). -/
inductive Event
  | genCall (title topic : String) (keywords : List String)
  | pubCall (title body : String)
deriving DecidableEq, Repr

/-- `interval = 1800  # 30 minutes in seconds` (`src/autoblogger.py` line
100). -/
def intervalSeconds : Nat := 1800

/-- The hard-coded cycle topic `blog_topic = "Technology Trends"` (line
111). -/
def cronTopic : String := "Technology Trends"

/-- The hard-coded cycle keywords (line 112). -/
def cronKeywords : List String := ["AI", "software development", "automation"]

/-- The timestamp-derived cycle title
`f"Automated Post {datetime.now().strftime(...)}"` (line 110); the wall
clock is modelled by the loop's time counter in seconds. -/
def autoTitle (t : Nat) : String := "Automated Post " ++ toString t

/-- What one due cycle of `cron_function` observes from its environment:
either `generate_blog_content` returns (`some` completion text, or `none`
after an exception it caught itself), or an exception escapes into the loop
body (for example from `asyncio.run` or from the `st.error` call inside
`generate_blog_content`'s handler, both of which run before any content is
available), landing in the loop's `except` clause. -/
inductive CycleOutcome
  | gen (content : Option String)
  | exn (msg : String)
deriving DecidableEq, Repr

/-- State of the `cron_function` loop (`src/autoblogger.py` lines 95-130):
`time` is `time.time()` in seconds, `nextRun` is `next_run_time`.  `events`
and `cycles` are observation logs: the remote calls made so far and the
start times of the generate cycles run so far. -/
structure CronState where
  time : Nat
  nextRun : Nat
  events : List Event
  cycles : List Nat
deriving DecidableEq, Repr

/-- One iteration of the `while` body of `cron_function` (lines 104-130).
If the due time has arrived (`current_time >= next_run_time`), run a cycle:
on a generate result, record the generate call, publish exactly when the
content is truthy, and set `next_run_time = current_time + interval`; on a
raised exception, the `except` clause logs and sleeps 30 s, leaving
`next_run_time` unchanged.  Otherwise sleep 5 s.  Generate and publish are
modelled as instantaneous; only the coded sleeps advance the clock. -/
def cron_body (oracle : Nat → CycleOutcome) (s : CronState) : CronState :=
  if s.nextRun ≤ s.time then
    match oracle s.time with
    | CycleOutcome.exn _ => { s with time := s.time + 30 }
    | CycleOutcome.gen c =>
        { s with
          nextRun := s.time + intervalSeconds,
          events := s.events ++ [Event.genCall (autoTitle s.time) cronTopic cronKeywords] ++
            (if truthy c then [Event.pubCall (autoTitle s.time) (c.getD "")] else []),
          cycles := s.cycles ++ [s.time] }
  else
    { s with time := s.time + 5 }

/-- The `while st.session_state["cron_running"]` loop of `cron_function`
(line 103), fuelled: each iteration first checks the flag (given as a
function of the current time, so a `stop_cron_job` at time `tstop` is the
flag `fun t => decide (t < tstop)`) and then runs `cron_body`. -/
def cron_run (flag : Nat → Bool) (oracle : Nat → CycleOutcome) :
    Nat → CronState → CronState
  | 0, s => s
  | Nat.succ n, s =>
      if flag s.time then cron_run flag oracle n (cron_body oracle s) else s

/-- The inter-cycle wait of `src/OLD_autoblogger.py` (lines 122-126):
`for _ in range(interval // 5): if not cron_running_flag: return;
time.sleep(5)`.  The first argument is the time at which the flag was
cleared, then the remaining range count, then the current time; the result
is the time at which the wait ends (by observing the cleared flag or by
exhausting the range). -/
def old_wait (tstop : Nat) : Nat → Nat → Nat
  | 0, t => t
  | Nat.succ k, t => if t < tstop then old_wait tstop k (t + 5) else t

deriving instance DecidableEq for Except

/-- An HTTP response as `publish_blog_post` consumes it: `status_code`,
`text` (the raw body), and `json`, the result of `response.json().get("id")`
— `Except.ok i` when the body parses as JSON (`i` is the optional id field),
`Except.error` with the decode-error text when `response.json()` raises. -/
structure HttpResponse where
  status_code : Nat
  text : String
  json : Except String (Option Nat)
deriving DecidableEq, Repr

/-- What `publish_blog_post` logs on each path (lines 86, 89, 92 of
`src/autoblogger.py`): the success line with the extracted id, the failure
line with status code and body, or the caught exception's text. -/
inductive PubLog
  | created (id : Option Nat)
  | failedStatus (code : Nat) (body : String)
  | exception (msg : String)
deriving DecidableEq, Repr

/-- `publish_blog_post` (`src/autoblogger.py` lines 71-93).  The argument is
the outcome of `requests.post`: `Except.error` when the request itself
raises, `Except.ok` the response otherwise.  Inside the `try`, a 201
response has its json id extracted and logged and yields `True`; a non-201
response logs status and body and yields `False`; any exception — from the
request or from `response.json()` on an unparseable 201 body — is caught by
the `except` clause, logged, and yields `False`.  The function never
raises. -/
def publish_blog_post (resp : Except String HttpResponse) : Bool × PubLog :=
  match resp with
  | Except.error e => (false, PubLog.exception e)
  | Except.ok r =>
      if r.status_code = 201 then
        match r.json with
        | Except.ok i => (true, PubLog.created i)
        | Except.error e => (false, PubLog.exception e)
      else
        (false, PubLog.failedStatus r.status_code r.text)

/-- Python `str.split(",")` on the underlying characters: cut at every
comma; a string with no comma yields one piece, so the empty string yields
`[""]`. -/
def splitCommaAux : List Char → List Char → List String
  | [], acc => [String.mk acc.reverse]
  | c :: cs, acc =>
      if c = ',' then String.mk acc.reverse :: splitCommaAux cs []
      else splitCommaAux cs (c :: acc)

/-- Python `keywords.split(",")`. -/
def splitComma (s : String) : List String := splitCommaAux s.data []

/-- Python `str.strip()`: drop leading and trailing whitespace. -/
def pyStrip (s : String) : String :=
  String.mk (((s.data.dropWhile Char.isWhitespace).reverse.dropWhile
    Char.isWhitespace).reverse)

/-- `keyword_list = [kw.strip() for kw in keywords.split(",") if kw.strip()]`
(`src/autoblogger.py` line 183): split on commas, strip each token, drop the
tokens that strip to the empty string. -/
def keywordList (s : String) : List String :=
  ((splitComma s).map pyStrip).filter (fun kw => kw != "")

/-- Outcome the manual "Generate and Publish Blog Post" handler surfaces to
the user (lines 181, 193, 195, 197): the validation error, the
generation-failure error, the publish success message, or the
publish-failure error. -/
inductive ManualResult
  | validationError
  | genFailed
  | published
  | publishFailed
deriving DecidableEq, Repr

/-- The manual-trigger button handler (`src/autoblogger.py` lines 179-197).
Inputs are the three raw widget strings, the chat-completion oracle `gen`
(what `generate_blog_content` returns for a title, topic and keyword list)
and the publish-request oracle `resp`.  Validation only tests Python
truthiness of the three raw strings (`if not blog_title or not blog_topic
or not keywords:`); when they are all non-empty, the keyword list is built,
the generator is called, and exactly when its result is truthy the post is
published.  Returns the surfaced outcome and the remote calls made. -/
def manual_handler (blog_title blog_topic keywords : String)
    (gen : String → String → List String → Option String)
    (resp : Except String HttpResponse) : ManualResult × List Event :=
  if blog_title = "" ∨ blog_topic = "" ∨ keywords = "" then
    (ManualResult.validationError, [])
  else
    let keyword_list := keywordList keywords
    let blog_content := gen blog_title blog_topic keyword_list
    let evs := [Event.genCall blog_title blog_topic keyword_list]
    if truthy blog_content then
      (if (publish_blog_post resp).1 then ManualResult.published
       else ManualResult.publishFailed,
       evs ++ [Event.pubCall blog_title (blog_content.getD "")])
    else
      (ManualResult.genFailed, evs)

/-- The manual handler as a step on the session state: the handler's
statements assign only to locals (`keyword_list`, `blog_content`,
`success`) and call `st.error` / `st.success`; no key of
`st.session_state` is written, so the session state passes through. -/
def manual_button (s : SessionState) (blog_title blog_topic keywords : String)
    (gen : String → String → List String → Option String)
    (resp : Except String HttpResponse) :
    SessionState × ManualResult × List Event :=
  (s, manual_handler blog_title blog_topic keywords gen resp)

/-- One secret as the startup code sees it: `store` is
`st.secrets.get(NAME)` and `env` is `os.getenv(NAME)`, each `none` when the
name is absent. -/
structure SecretSource where
  store : Option String
  env : Option String
deriving DecidableEq, Repr

/-- `st.secrets.get(NAME) or os.getenv(NAME)` (lines 17-20): the store value
when it is truthy, otherwise the environment value. -/
def resolveSecret (src : SecretSource) : Option String :=
  match src.store with
  | some s => if s = "" then src.env else some s
  | none => src.env

/-- The four secret sources visible at startup. -/
structure StartupInput where
  wp_domain : SecretSource
  wp_username : SecretSource
  wp_app_password : SecretSource
  openai_api_key : SecretSource
deriving DecidableEq, Repr

/-- The fixed posts endpoint (line 27). -/
def wpEndpoint : String := "/wp-json/wp/v2/posts/"

/-- Configuration produced when startup passes the secrets check: the four
resolved values and the derived `url = f"{domain}{endpoint}"` (line 28).
Everything after the check (url, logging, client, session init, UI) is only
reached on the `ok` branch. -/
structure Config where
  domain : String
  username : String
  app_password : String
  openai_api_key : String
  url : String
deriving DecidableEq, Repr

/-- Module-top startup (`src/autoblogger.py` lines 17-28): resolve the four
secrets, and `raise KeyError(...)` unless `all([domain, username,
app_password, openai_api_key])` — Python `all` over truthiness, so a missing
value and an empty string both fail the check. -/
def startup (i : StartupInput) : Except String Config :=
  let domain := resolveSecret i.wp_domain
  let username := resolveSecret i.wp_username
  let app_password := resolveSecret i.wp_app_password
  let openai_api_key := resolveSecret i.openai_api_key
  if truthy domain && truthy username && truthy app_password &&
      truthy openai_api_key then
    Except.ok
      { domain := domain.getD "", username := username.getD "",
        app_password := app_password.getD "",
        openai_api_key := openai_api_key.getD "",
        url := domain.getD "" ++ wpEndpoint }
  else
    Except.error "One or more required secrets (WP_DOMAIN, WP_USERNAME, WP_APP_PASSWORD, OPENAI_API_KEY) are missing."

/-- C1, counterexample.  The claim's at-most-one-active-loop invariant fails
on a reachable state: `start(); stop(); start()` with the first loop thread
still mid-cycle (it has not yet re-checked the cleared flag, e.g. it is
inside a blocking generate call) leaves two live `cron_function` threads —
the second `start` sees `cron_running = False` and spawns again, and the
old thread then sees the flag back at `True` and keeps looping. -/
theorem start_after_stop_spawns_second_loop :
    (sysRun [SysEvent.startEv, SysEvent.stopEv, SysEvent.startEv]
      initState).live_threads = 2 := by
  decide

/-- C1, amended.  (1) Calling `start` while the flag is set is a no-op and
spawns nothing; (2) `start()` immediately followed by `start()` leaves
exactly one live loop thread; (3) the at-most-one-active-loop invariant
holds in every reachable state of the synchronized machine, in which each
`stop()` is atomically followed by the stopped loop thread observing the
cleared flag and exiting before the next UI event. -/
theorem start_noop_and_atmost_one_loop_synced :
    (∀ s : SessionState, s.cron_running = true →
      start_cron_job_in_background s = s)
  ∧ (sysRun [SysEvent.startEv, SysEvent.startEv] initState).live_threads = 1
  ∧ (∀ evs : List SyncEvent, (syncRun evs initState).live_threads ≤ 1) := by
  refine ⟨?_, by decide, ?_⟩
  · intro s h
    unfold start_cron_job_in_background
    simp [h]
  · intro evs
    have h0 : syncInv initState := by unfold syncInv initState; simp
    have h := syncRun_inv evs initState h0
    unfold syncInv at h
    rw [h]
    cases (syncRun evs initState).cron_running <;> simp

/-- C1, witness: the no-op clause of the amended theorem at a concrete
running state. -/
theorem start_noop_witness :
    start_cron_job_in_background
        { cron_running := true, cron_thread := some 0, live_threads := 1,
          next_tid := 1 } =
      { cron_running := true, cron_thread := some 0, live_threads := 1,
        next_tid := 1 } :=
  start_noop_and_atmost_one_loop_synced.1
    { cron_running := true, cron_thread := some 0, live_threads := 1,
      next_tid := 1 } rfl

/-- C2.  If `stop()` clears the flag at time `tstop` while the loop is in
its inter-cycle wait (the due time has not arrived: `tstop ≤ nextRun`),
then for any sufficient fuel the loop of `src/autoblogger.py` ends below
`tstop + 5` — one 5-second polling quantum, never the 1800-second interval
— having run no further cycle and made no further remote call; the flag is
checked at the top of every iteration, i.e. once per 5-second sleep of the
wait.  The second clause is the same bound for the dedicated wait loop of
`src/OLD_autoblogger.py`, which re-checks the flag before each of its
5-second sleeps. -/
theorem stop_during_wait_bounded_latency :
    (∀ (tstop : Nat) (oracle : Nat → CycleOutcome) (fuel : Nat)
        (s : CronState),
      s.time < tstop + 5 → tstop ≤ s.nextRun → tstop ≤ s.time + 5 * fuel →
      (cron_run (fun t => decide (t < tstop)) oracle fuel s).time < tstop + 5 ∧
      (cron_run (fun t => decide (t < tstop)) oracle fuel s).events = s.events ∧
      (cron_run (fun t => decide (t < tstop)) oracle fuel s).cycles = s.cycles)
  ∧ (∀ tstop k t : Nat,
      t < tstop + 5 → tstop ≤ t + 5 * k → old_wait tstop k t < tstop + 5) := by
  constructor
  · intro tstop oracle fuel
    induction fuel with
    | zero =>
        intro s h1 _ _
        exact ⟨h1, rfl, rfl⟩
    | succ n ih =>
        intro s h1 h2 h3
        unfold cron_run
        by_cases hf : s.time < tstop
        · rw [if_pos (by simpa using hf)]
          have hnd : ¬ s.nextRun ≤ s.time := by omega
          have hb : cron_body oracle s = { s with time := s.time + 5 } := by
            unfold cron_body
            rw [if_neg hnd]
          rw [hb]
          refine ih { s with time := s.time + 5 } ?_ h2 ?_
          · show s.time + 5 < tstop + 5
            omega
          · show tstop ≤ s.time + 5 + 5 * n
            omega
        · rw [if_neg (by simpa using hf)]
          exact ⟨h1, rfl, rfl⟩
  · intro tstop k
    induction k with
    | zero =>
        intro t h1 _
        simpa [old_wait] using h1
    | succ n ih =>
        intro t h1 h2
        unfold old_wait
        by_cases hf : t < tstop
        · rw [if_pos hf]
          exact ih (t + 5) (by omega) (by omega)
        · rw [if_neg hf]
          exact h1

/-- C2, witness: a stop at time 7 during a wait that began at time 0 with
the next cycle due at time 100 ends the loop (and the old-style wait)
before time 12. -/
theorem stop_during_wait_bounded_latency_witness :
    ((cron_run (fun t => decide (t < 7)) (fun _ => CycleOutcome.gen none) 2
        { time := 0, nextRun := 100, events := [], cycles := [] }).time <
      7 + 5)
  ∧ old_wait 7 3 0 < 7 + 5 :=
  ⟨(stop_during_wait_bounded_latency.1 7 (fun _ => CycleOutcome.gen none) 2
      { time := 0, nextRun := 100, events := [], cycles := [] }
      (by decide) (by decide) (by decide)).1,
   stop_during_wait_bounded_latency.2 7 3 0 (by decide) (by decide)⟩

/-- A due cycle at time 1800 raises; the retry at time 1830 generates
successfully. -/
def oracleC3 : Nat → CycleOutcome :=
  fun t =>
    if t = 1800 then CycleOutcome.exn "boom"
    else CycleOutcome.gen (some "body")

/-- C3, counterexample.  A cycle due at time 1800 fails with a raised
exception; the loop survives it, but the next cycle runs at time 1830 —
right after the 30-second backoff, because `next_run_time` was not updated
on the exception path — not at the next interval boundary
`1800 + intervalSeconds = 3600` as the claim states. -/
theorem exception_cycle_retries_before_boundary :
    (cron_run (fun _ => true) oracleC3 2
      { time := 1800, nextRun := 1800, events := [],
        cycles := [] }).cycles = [1830]
  ∧ 1830 ≠ 1800 + intervalSeconds := by
  decide

/-- C3, amended.  No cycle failure terminates the loop.  (1) A raised
exception is caught by the loop's catch-all: the body completes, leaving
`next_run_time` unchanged and advancing the clock by the 30-second backoff,
and the loop then runs its next cycle immediately after the backoff (not at
the next interval boundary).  (2) A generation failure that
`generate_blog_content` caught itself (returning `None`) is logged and the
cycle completes without backoff, the next cycle being scheduled at the next
interval boundary `time + intervalSeconds`. -/
theorem cycle_failure_keeps_loop_alive :
    (∀ (oracle : Nat → CycleOutcome) (s : CronState) (m : String)
        (c : Option String),
      s.nextRun ≤ s.time →
      oracle s.time = CycleOutcome.exn m →
      oracle (s.time + 30) = CycleOutcome.gen c →
      cron_body oracle s = { s with time := s.time + 30 } ∧
      (cron_run (fun _ => true) oracle 2 s).cycles =
        s.cycles ++ [s.time + 30])
  ∧ (∀ (oracle : Nat → CycleOutcome) (s : CronState),
      s.nextRun ≤ s.time →
      oracle s.time = CycleOutcome.gen none →
      cron_body oracle s =
        { s with
          nextRun := s.time + intervalSeconds,
          events := s.events ++
            [Event.genCall (autoTitle s.time) cronTopic cronKeywords],
          cycles := s.cycles ++ [s.time] }) := by
  constructor
  · intro oracle s m c h ho1 ho2
    have hb1 : cron_body oracle s = { s with time := s.time + 30 } := by
      unfold cron_body
      rw [if_pos h, ho1]
    refine ⟨hb1, ?_⟩
    have e2 : cron_run (fun _ => true) oracle 2 s =
        cron_body oracle (cron_body oracle s) := rfl
    rw [e2, hb1]
    have hd : s.nextRun ≤ s.time + 30 := by omega
    simp [cron_body, hd, ho2]
  · intro oracle s h ho
    unfold cron_body
    rw [if_pos h, ho]
    simp [truthy]

/-- C3, witness: the amended theorem's exception clause at the concrete
run of the counterexample's oracle. -/
theorem cycle_failure_keeps_loop_alive_witness :
    (cron_run (fun _ => true) oracleC3 2
        { time := 1800, nextRun := 1800, events := [],
          cycles := [] }).cycles =
      ([] : List Nat) ++ [1800 + 30] :=
  (cycle_failure_keeps_loop_alive.1 oracleC3
    { time := 1800, nextRun := 1800, events := [], cycles := [] } "boom"
    (some "body") (by decide) (by decide) (by decide)).2

/-- C4, counterexample.  A due cycle's generate call carries the hard-coded
topic "Technology Trends" and keywords ["AI", "software development",
"automation"], not the topic "X" and keywords ["a", "b"] of the spec's
round-trip scenario — `start_cron_job_in_background` takes no topic or
keyword arguments and records none, so no start-supplied values can reach
the cycle. -/
theorem cycle_uses_hardcoded_topic :
    (cron_body (fun _ => CycleOutcome.gen (some "b"))
      { time := 1800, nextRun := 1800, events := [], cycles := [] }).events =
      [Event.genCall "Automated Post 1800" "Technology Trends"
        ["AI", "software development", "automation"],
       Event.pubCall "Automated Post 1800" "b"]
  ∧ cronTopic ≠ "X" ∧ cronKeywords ≠ ["a", "b"] := by
  decide

/-- C4, amended.  Every due cycle invokes the generator with a
timestamp-derived title, the fixed topic "Technology Trends" and the fixed
keywords ["AI", "software development", "automation"], independent of
anything supplied at start time (start takes no such parameters), and
publishes that same title exactly when content was produced. -/
theorem cycle_request_fixed_inputs :
    (∀ (oracle : Nat → CycleOutcome) (s : CronState) (c : Option String),
      s.nextRun ≤ s.time → oracle s.time = CycleOutcome.gen c →
      (cron_body oracle s).events =
        s.events ++
          [Event.genCall (autoTitle s.time) cronTopic cronKeywords] ++
          (if truthy c then
            [Event.pubCall (autoTitle s.time) (c.getD "")]
           else []))
  ∧ cronTopic = "Technology Trends"
  ∧ cronKeywords = ["AI", "software development", "automation"] := by
  refine ⟨?_, rfl, rfl⟩
  intro oracle s c h ho
  unfold cron_body
  rw [if_pos h, ho]

/-- C4, witness: the amended theorem at a concrete due cycle with content
"b". -/
theorem cycle_request_fixed_inputs_witness :
    (cron_body (fun _ => CycleOutcome.gen (some "b"))
        { time := 1800, nextRun := 1800, events := [], cycles := [] }).events =
      ([] : List Event) ++
        [Event.genCall (autoTitle 1800) cronTopic cronKeywords] ++
        (if truthy (some "b") then
          [Event.pubCall (autoTitle 1800) ((some "b" : Option String).getD "")]
         else []) :=
  cycle_request_fixed_inputs.1 (fun _ => CycleOutcome.gen (some "b"))
    { time := 1800, nextRun := 1800, events := [], cycles := [] } (some "b")
    (by decide) rfl

/-- A generation oracle that always fails (as after a caught exception). -/
def genNone : String → String → List String → Option String :=
  fun _ _ _ => none

/-- C5, counterexample.  The keyword text "," is non-empty, so it passes the
handler's validation (`if not blog_title or not blog_topic or not
keywords:`), although it splits and trims to the empty keyword list; the
generator is then called (with an empty keyword list) instead of the claimed
validation failure. -/
theorem comma_only_keywords_pass_validation :
    keywordList "," = []
  ∧ manual_handler "t" "p" "," genNone (Except.error "down") =
      (ManualResult.genFailed, [Event.genCall "t" "p" []]) := by
  decide

/-- C5, amended.  The manual trigger validates only that the three raw
strings are non-empty: any empty raw field yields the validation failure
with no remote call, and whenever all three raw fields are non-empty the
generator is called with the comma-split, trimmed, empty-token-dropped
keyword list — even when that list is empty. -/
theorem manual_validation_raw_nonempty :
    (∀ (t p k : String)
        (gen : String → String → List String → Option String)
        (resp : Except String HttpResponse),
      (t = "" ∨ p = "" ∨ k = "") →
      manual_handler t p k gen resp = (ManualResult.validationError, []))
  ∧ (∀ (t p k : String)
        (gen : String → String → List String → Option String)
        (resp : Except String HttpResponse),
      t ≠ "" → p ≠ "" → k ≠ "" →
      (manual_handler t p k gen resp).2 =
        [Event.genCall t p (keywordList k)] ++
          (if truthy (gen t p (keywordList k)) then
            [Event.pubCall t ((gen t p (keywordList k)).getD "")]
           else [])) := by
  constructor
  · intro t p k gen resp h
    unfold manual_handler
    rw [if_pos h]
  · intro t p k gen resp ht hp hk
    by_cases hg : truthy (gen t p (keywordList k)) <;>
      simp [manual_handler, ht, hp, hk, hg]

/-- C5, witness: the amended theorem's non-empty clause at the
counterexample's concrete input, showing the generator call with the empty
keyword list. -/
theorem manual_validation_raw_nonempty_witness :
    (manual_handler "t" "p" "," genNone (Except.error "down")).2 =
      [Event.genCall "t" "p" (keywordList ",")] ++
        (if truthy (genNone "t" "p" (keywordList ",")) then
          [Event.pubCall "t" ((genNone "t" "p" (keywordList ",")).getD "")]
         else []) :=
  manual_validation_raw_nonempty.2 "t" "p" "," genNone (Except.error "down")
    (by decide) (by decide) (by decide)

/-- C6, counterexample.  A response with the created status 201 whose body
does not parse as JSON makes `response.json()` raise inside the `try`, so
`publish_blog_post` lands in its `except` clause and returns failure — the
claim's "success exactly when the service returns a created status" fails
in the right-to-left direction. -/
theorem created_status_bad_json_reports_failure :
    publish_blog_post (Except.ok
      { status_code := 201, text := "not json",
        json := Except.error "JSONDecodeError" }) =
      (false, PubLog.exception "JSONDecodeError") := by
  decide

/-- C6, amended.  `publish_blog_post` succeeds exactly when the response has
status 201 and its body parses as JSON (so the id can be extracted for the
log); a non-201 response yields failure logging the status code and body; a
transport exception yields failure logging the exception text; a 201
response with an unparseable body yields failure logging the decode error.
The function is total, so no exception propagates past the caller. -/
lemma publish_ok_red (r : HttpResponse) :
    publish_blog_post (Except.ok r) =
      if r.status_code = 201 then
        match r.json with
        | Except.ok i => (true, PubLog.created i)
        | Except.error e => (false, PubLog.exception e)
      else (false, PubLog.failedStatus r.status_code r.text) := rfl

theorem publish_result_characterization :
    (∀ r : HttpResponse,
      ((publish_blog_post (Except.ok r)).1 = true ↔
        r.status_code = 201 ∧ ∃ i, r.json = Except.ok i))
  ∧ (∀ r : HttpResponse, r.status_code ≠ 201 →
      publish_blog_post (Except.ok r) =
        (false, PubLog.failedStatus r.status_code r.text))
  ∧ (∀ e : String,
      publish_blog_post (Except.error e) = (false, PubLog.exception e))
  ∧ (∀ (r : HttpResponse) (e : String), r.status_code = 201 →
      r.json = Except.error e →
      publish_blog_post (Except.ok r) = (false, PubLog.exception e)) := by
  refine ⟨?_, ?_, ?_, ?_⟩
  · intro r
    rw [publish_ok_red]
    by_cases hs : r.status_code = 201
    · rw [if_pos hs]
      cases hj : r.json with
      | ok i => simp [hs]
      | error e => simp [hs]
    · rw [if_neg hs]
      simp [hs]
  · intro r hs
    rw [publish_ok_red, if_neg hs]
  · intro e
    rfl
  · intro r e hs hj
    rw [publish_ok_red, if_pos hs, hj]

/-- C6, witness: the amended theorem's non-201 clause at a concrete 404
response. -/
theorem publish_result_characterization_witness :
    publish_blog_post (Except.ok
        { status_code := 404, text := "nf", json := Except.ok none }) =
      (false, PubLog.failedStatus 404 "nf") :=
  publish_result_characterization.2.1
    { status_code := 404, text := "nf", json := Except.ok none } (by decide)

/-- A truthy optional string holds a non-empty string. -/
lemma truthy_getD (o : Option String) (h : truthy o = true) :
    o.getD "" ≠ "" := by
  cases o with
  | none => simp [truthy] at h
  | some s => simpa [truthy] using h

/-- C7.  In a due cycle whose generate call returns (`CycleOutcome.gen c`),
the publish call is made exactly when content was produced (`truthy c`): a
generation failure adds no publish call, and the cycle still proceeds to
the post-cycle step, scheduling the next run at `time + intervalSeconds`. -/
theorem publish_only_with_content :
    ∀ (oracle : Nat → CycleOutcome) (s : CronState) (c : Option String),
      s.nextRun ≤ s.time → oracle s.time = CycleOutcome.gen c →
      (∀ tt bb : String,
        (Event.pubCall tt bb ∈ (cron_body oracle s).events ↔
          (Event.pubCall tt bb ∈ s.events ∨
            (truthy c = true ∧ tt = autoTitle s.time ∧ bb = c.getD "")))) ∧
      (cron_body oracle s).nextRun = s.time + intervalSeconds := by
  intro oracle s c h ho
  have hb : cron_body oracle s =
      { s with
        nextRun := s.time + intervalSeconds,
        events := s.events ++
          [Event.genCall (autoTitle s.time) cronTopic cronKeywords] ++
          (if truthy c then
            [Event.pubCall (autoTitle s.time) (c.getD "")] else []),
        cycles := s.cycles ++ [s.time] } := by
    unfold cron_body
    rw [if_pos h, ho]
  constructor
  · intro tt bb
    rw [hb]
    by_cases hg : truthy c <;> simp [hg, List.mem_append]
  · rw [hb]

/-- C7, witness: at a concrete due cycle with content "body", the publish
call is present. -/
theorem publish_only_with_content_witness :
    Event.pubCall (autoTitle 1800) "body" ∈
      (cron_body (fun _ => CycleOutcome.gen (some "body"))
        { time := 1800, nextRun := 1800, events := [],
          cycles := [] }).events ↔
      (Event.pubCall (autoTitle 1800) "body" ∈ ([] : List Event) ∨
        (truthy (some "body") = true ∧ autoTitle 1800 = autoTitle 1800 ∧
          "body" = (some "body" : Option String).getD "")) :=
  (publish_only_with_content (fun _ => CycleOutcome.gen (some "body"))
      { time := 1800, nextRun := 1800, events := [], cycles := [] }
      (some "body") (by decide) rfl).1 (autoTitle 1800) "body"

lemma startup_red (i : StartupInput) :
    startup i =
      if truthy (resolveSecret i.wp_domain) &&
          truthy (resolveSecret i.wp_username) &&
          truthy (resolveSecret i.wp_app_password) &&
          truthy (resolveSecret i.openai_api_key) then
        Except.ok
          { domain := (resolveSecret i.wp_domain).getD "",
            username := (resolveSecret i.wp_username).getD "",
            app_password := (resolveSecret i.wp_app_password).getD "",
            openai_api_key := (resolveSecret i.openai_api_key).getD "",
            url := (resolveSecret i.wp_domain).getD "" ++ wpEndpoint }
      else
        Except.error "One or more required secrets (WP_DOMAIN, WP_USERNAME, WP_APP_PASSWORD, OPENAI_API_KEY) are missing." := rfl

/-- C8, counterexample.  All four secrets are present — the first three in
the secret store, the API key in the environment, as the empty string —
yet startup raises the KeyError, because Python's `all` tests truthiness
and the empty string is falsy. -/
theorem empty_secret_present_aborts :
    startup
        { wp_domain := { store := some "https://example.com", env := none },
          wp_username := { store := some "admin", env := none },
          wp_app_password := { store := some "pw", env := none },
          openai_api_key := { store := none, env := some "" } } =
      Except.error "One or more required secrets (WP_DOMAIN, WP_USERNAME, WP_APP_PASSWORD, OPENAI_API_KEY) are missing." := by
  decide

/-- C8, amended.  Startup succeeds exactly when each of the four secrets
resolves (store value if truthy, else environment value) to a non-empty
string; in particular a secret absent from both the store and the
environment resolves to nothing (second clause) and aborts startup, and
the abort happens before any later startup step, since the configuration
(including the derived url) is only built on the success branch. -/
theorem startup_ok_iff_secrets_nonempty :
    (∀ i : StartupInput,
      (∃ c, startup i = Except.ok c) ↔
        (truthy (resolveSecret i.wp_domain) = true ∧
         truthy (resolveSecret i.wp_username) = true ∧
         truthy (resolveSecret i.wp_app_password) = true ∧
         truthy (resolveSecret i.openai_api_key) = true))
  ∧ resolveSecret { store := none, env := none } = none := by
  refine ⟨?_, rfl⟩
  intro i
  rw [startup_red]
  by_cases h : (truthy (resolveSecret i.wp_domain) &&
      truthy (resolveSecret i.wp_username) &&
      truthy (resolveSecret i.wp_app_password) &&
      truthy (resolveSecret i.openai_api_key)) = true
  · rw [if_pos h]
    simp only [Bool.and_eq_true] at h
    constructor
    · intro _
      exact ⟨h.1.1.1, h.1.1.2, h.1.2, h.2⟩
    · intro _
      exact ⟨_, rfl⟩
  · rw [if_neg h]
    simp only [Bool.and_eq_true] at h
    constructor
    · rintro ⟨c, hc⟩
      cases hc
    · intro hc
      exact absurd ⟨⟨⟨hc.1, hc.2.1⟩, hc.2.2.1⟩, hc.2.2.2⟩ h

/-- C9.  The manual trigger never writes any session-state field: whatever
its outcome (validation failure, generation failure, publish failure or
success — i.e. for every generator and publish oracle), the session state
after the handler equals the one before, so the running flag and the loop
thread handle are untouched (the interval, topic and keywords of the loop
are constants inside `cron_function`, not session state, and so cannot be
touched either). -/
theorem manual_trigger_preserves_schedule_state :
    ∀ (s : SessionState) (t p k : String)
      (gen : String → String → List String → Option String)
      (resp : Except String HttpResponse),
      (manual_button s t p k gen resp).1 = s := by
  intro s t p k gen resp
  rfl

/-- C10.  An empty-string completion is treated identically to a generation
failure, and no publish call ever carries an empty body: (1) the manual
handler behaves identically under a generator returning the empty string
and one returning `None`; (2) a due cycle whose generate call returns the
empty string makes no publish call; (3) any publish call the manual handler
makes has a non-empty body; (4) any publish call a cycle adds has a
non-empty body. -/
theorem no_empty_body_publish :
    (∀ (t p k : String) (resp : Except String HttpResponse),
      manual_handler t p k (fun _ _ _ => some "") resp =
        manual_handler t p k (fun _ _ _ => none) resp)
  ∧ (∀ (oracle : Nat → CycleOutcome) (s : CronState),
      s.nextRun ≤ s.time → oracle s.time = CycleOutcome.gen (some "") →
      (cron_body oracle s).events =
        s.events ++ [Event.genCall (autoTitle s.time) cronTopic cronKeywords])
  ∧ (∀ (t p k : String)
        (gen : String → String → List String → Option String)
        (resp : Except String HttpResponse) (tt bb : String),
      Event.pubCall tt bb ∈ (manual_handler t p k gen resp).2 → bb ≠ "")
  ∧ (∀ (oracle : Nat → CycleOutcome) (s : CronState) (tt bb : String),
      Event.pubCall tt bb ∈ (cron_body oracle s).events →
      Event.pubCall tt bb ∈ s.events ∨ bb ≠ "") := by
  refine ⟨?_, ?_, ?_, ?_⟩
  · intro t p k resp
    by_cases hv : (t = "" ∨ p = "" ∨ k = "") <;>
      simp [manual_handler, hv, truthy]
  · intro oracle s h ho
    unfold cron_body
    rw [if_pos h, ho]
    simp [truthy]
  · intro t p k gen resp tt bb hmem
    by_cases hv : (t = "" ∨ p = "" ∨ k = "")
    · simp [manual_handler, hv] at hmem
    · by_cases hg : truthy (gen t p (keywordList k))
      · simp [manual_handler, hv, hg] at hmem
        rcases hmem with ⟨h1, h2⟩
        rw [h2]
        exact truthy_getD _ hg
      · simp [manual_handler, hv, hg] at hmem
  · intro oracle s tt bb hmem
    unfold cron_body at hmem
    by_cases h : s.nextRun ≤ s.time
    · rw [if_pos h] at hmem
      cases ho : oracle s.time with
      | exn m =>
          rw [ho] at hmem
          exact Or.inl hmem
      | gen c =>
          rw [ho] at hmem
          by_cases hg : truthy c
          · simp [hg, List.mem_append] at hmem
            rcases hmem with hm | ⟨h1, h2⟩
            · exact Or.inl hm
            · right
              rw [h2]
              exact truthy_getD _ hg
          · simp [hg, List.mem_append] at hmem
            exact Or.inl hmem
    · rw [if_neg h] at hmem
      exact Or.inl hmem

/-- C10, witness: a concrete manual run that publishes has body "body",
which the theorem certifies to be non-empty. -/
theorem no_empty_body_publish_witness :
    ("body" : String) ≠ "" :=
  no_empty_body_publish.2.2.1 "t" "p" "kw" (fun _ _ _ => some "body")
    (Except.error "down") "t" "body" (by decide)

end Autoblogger
